import Mathlib

/-!
# LexTimeLine — verification of the structured-output validation/repair pipeline

Shallow embedding of the core of the LexTimeLine repository:

* `src/models.py` — the Pydantic domain objects (`TimelineEvent`,
  `TimelineResponse`, `Contradiction`, `LogicAnalysisResult`,
  `AnalysisResult`) together with their field-level validators, embedded as
  structures plus explicit construction functions returning `Except String _`
  (a raised pydantic `ValidationError` is an `Except.error`);
* `src/services/llm_extractor.py` / `src/services/logic_analyzer.py` — the
  `_parse_and_validate` repair pipelines (index clamping, count repair), the
  strict JSON-schema builders, and `detect_contradictions` including its
  empty-input early exit and the strict-schema fallback, with the outbound
  LLM call modelled by an explicit `ApiOutcome` oracle and a call counter;
* `src/main.py` — the error-handling policy of `analyze_document_deep`
  after a successful extraction;
* `src/backend/services/chat_service.py` — the `_build_context_str`
  grounding-block renderer over the JSON-serialized `AnalysisResult`,
  with Python dictionary values modelled by `PyVal`.

Python floats only ever enter as bounds-checked constants here, so they are
modelled by `Rat`; machine integers do not overflow in any modelled code path
and are modelled by `Int` (JSON integers are unbounded anyway).
-/

namespace LexTimeline

/-! ## Python `sorted(set(v))` (models.py, `Contradiction.validate_event_ids`)

`sorted(set(v))` returns the ascending duplicate-free enumeration of the
elements of `v`; we model it as an insertion sort of `v.dedup`. -/

def sortedDedup (l : List Int) : List Int :=
  List.insertionSort (· ≤ ·) l.dedup

theorem mem_sortedDedup {x : Int} {l : List Int} : x ∈ sortedDedup l ↔ x ∈ l := by
  unfold sortedDedup
  rw [List.mem_insertionSort, List.mem_dedup]

theorem sortedDedup_nodup (l : List Int) : (sortedDedup l).Nodup :=
  (List.perm_insertionSort _ _).nodup_iff.mpr (List.nodup_dedup l)

theorem sortedDedup_sorted_le (l : List Int) : (sortedDedup l).Sorted (· ≤ ·) :=
  List.sorted_insertionSort _ _

theorem sorted_lt_of_sorted_le_nodup {l : List Int}
    (hs : l.Sorted (· ≤ ·)) (hn : l.Nodup) : l.Sorted (· < ·) := by
  induction l with
  | nil => exact List.sorted_nil
  | cons a t ih =>
    rw [List.sorted_cons] at hs ⊢
    rw [List.nodup_cons] at hn
    refine ⟨fun b hb => lt_of_le_of_ne (hs.1 b hb) ?_, ih hs.2 hn.2⟩
    intro hab
    exact hn.1 (hab ▸ hb)

theorem sortedDedup_sorted_lt (l : List Int) : (sortedDedup l).Sorted (· < ·) :=
  sorted_lt_of_sorted_le_nodup (sortedDedup_sorted_le l) (sortedDedup_nodup l)

theorem sortedDedup_ne_nil {l : List Int} (h : l ≠ []) : sortedDedup l ≠ [] := by
  obtain ⟨x, hx⟩ := List.exists_mem_of_ne_nil l h
  intro hcontra
  have : x ∈ sortedDedup l := mem_sortedDedup.mpr hx
  rw [hcontra] at this
  exact (List.not_mem_nil x) this

/-! ## Domain objects (src/models.py) -/

/-- Model of `TimelineEvent` (models.py): a single date-bound legal event.
Pydantic field constraint: `source_page >= 1` (checked at construction). -/
structure TimelineEvent where
  date : String
  description : String
  source_page : Int
  entities : List String
  category : String
  significance : Option String
deriving Repr, DecidableEq

/-- Model of `TimelineResponse` (models.py): the Phase-1 extraction result.
Pydantic field constraint: `total_events_found >= 0`. -/
structure TimelineResponse where
  events : List TimelineEvent
  document_summary : String
  total_events_found : Int
  primary_jurisdiction : Option String
  case_number : Option String
deriving Repr, DecidableEq

/-- Model of `ContradictionType` (models.py): closed enumeration. -/
inductive ContradictionType where
  | FACTUAL_ERROR
  | WITNESS_CONFLICT
  | TIMELINE_IMPOSSIBILITY
  | MISSING_INFO
deriving Repr, DecidableEq

/-- The string value the `str`-mixin enum serializes to. -/
def ContradictionType.value : ContradictionType → String
  | .FACTUAL_ERROR => "FACTUAL_ERROR"
  | .WITNESS_CONFLICT => "WITNESS_CONFLICT"
  | .TIMELINE_IMPOSSIBILITY => "TIMELINE_IMPOSSIBILITY"
  | .MISSING_INFO => "MISSING_INFO"

/-- Pydantic enum coercion from the raw string. -/
def ContradictionType.fromString : String → Option ContradictionType
  | "FACTUAL_ERROR" => some .FACTUAL_ERROR
  | "WITNESS_CONFLICT" => some .WITNESS_CONFLICT
  | "TIMELINE_IMPOSSIBILITY" => some .TIMELINE_IMPOSSIBILITY
  | "MISSING_INFO" => some .MISSING_INFO
  | _ => none

/-- Model of `Contradiction` (models.py) after successful pydantic validation:
`involved_event_ids` holds the value produced by `validate_event_ids`,
i.e. `sorted(set(v))` of the raw list. -/
structure Contradiction where
  title : String
  contradiction_type : ContradictionType
  description : String
  involved_event_ids : List Int
  severity : String
  confidence_score : Rat
  legal_basis : Option String
  recommended_action : Option String
deriving Repr, DecidableEq

/-- Model of `LogicAnalysisResult` (models.py): the Phase-2 cross-reference result. -/
structure LogicAnalysisResult where
  contradictions : List Contradiction
  total_contradictions_found : Int
  risk_level : String
  analysis_notes : Option String
deriving Repr, DecidableEq

/-- Model of `AnalysisResult` (models.py): flattened union of the two phases. -/
structure AnalysisResult where
  events : List TimelineEvent
  document_summary : String
  total_events_found : Int
  primary_jurisdiction : Option String
  case_number : Option String
  contradictions : List Contradiction
  total_contradictions_found : Int
  risk_level : String
  analysis_notes : Option String
deriving Repr, DecidableEq

/-- Model of `AnalysisResult.from_phases` (models.py, lines 329-354): pure field-union
merge of one `TimelineResponse` and one `LogicAnalysisResult`. -/
def AnalysisResult.from_phases (timeline : TimelineResponse)
    (logic : LogicAnalysisResult) : AnalysisResult :=
  { events := timeline.events
    document_summary := timeline.document_summary
    total_events_found := timeline.total_events_found
    primary_jurisdiction := timeline.primary_jurisdiction
    case_number := timeline.case_number
    contradictions := logic.contradictions
    total_contradictions_found := logic.total_contradictions_found
    risk_level := logic.risk_level
    analysis_notes := logic.analysis_notes }

/-! ## Raw (parsed-JSON) payloads and pydantic construction

A "raw payload" is the generic structured value obtained from
`json.loads`, before pydantic model construction.  Pydantic collects all
field-level violations and raises if any fails; the embedding checks them
sequentially, which raises on exactly the same inputs.  A raw event has the
same field shape as a `TimelineEvent` (only the `source_page >= 1` bound is
checked at construction), so `TimelineEvent` doubles as the raw event. -/

/-- Raw `TimelineResponse` payload, field for field. -/
structure RawTimelinePayload where
  events : List TimelineEvent
  document_summary : String
  total_events_found : Int
  primary_jurisdiction : Option String
  case_number : Option String
deriving Repr, DecidableEq

/-- Raw `Contradiction` payload: `contradiction_type` still a string,
`involved_event_ids` as delivered (possibly empty / unsorted / duplicated). -/
structure RawContradiction where
  title : String
  contradiction_type : String
  description : String
  involved_event_ids : List Int
  severity : String
  confidence_score : Rat
  legal_basis : Option String
  recommended_action : Option String
deriving Repr, DecidableEq

/-- Raw `LogicAnalysisResult` payload. -/
structure RawLogicPayload where
  contradictions : List RawContradiction
  total_contradictions_found : Int
  risk_level : String
  analysis_notes : Option String
deriving Repr, DecidableEq

/-- The `severity` validator (models.py, `Contradiction.validate_severity`). -/
def severityAllowed (v : String) : Bool :=
  v = "HIGH" || v = "MEDIUM" || v = "LOW"

/-- The `risk_level` validator (models.py, `LogicAnalysisResult.validate_risk_level`). -/
def riskLevelAllowed (v : String) : Bool :=
  v = "HIGH" || v = "MEDIUM" || v = "LOW" || v = "NONE"

/-- Pydantic construction of a `Contradiction` (models.py): enum coercion,
`min_length=1`, the `>= 0` check of `validate_event_ids`, the severity
closed set, `confidence_score` in `[0, 1]`; on success `involved_event_ids`
is replaced by `sorted(set(v))`. -/
def Contradiction.construct (r : RawContradiction) : Except String Contradiction :=
  match ContradictionType.fromString r.contradiction_type with
  | none => .error "contradiction_type is not a valid ContradictionType"
  | some ty =>
    if r.involved_event_ids.isEmpty then
      .error "involved_event_ids must contain at least 1 element"
    else if r.involved_event_ids.any (fun i => decide (i < 0)) then
      .error "All involved_event_ids must be >= 0 (0-based index)."
    else if !(severityAllowed r.severity) then
      .error "severity must be one of HIGH, MEDIUM, LOW"
    else if !(decide (0 ≤ r.confidence_score) && decide (r.confidence_score ≤ 1)) then
      .error "confidence_score must be in [0, 1]"
    else
      .ok { title := r.title
            contradiction_type := ty
            description := r.description
            involved_event_ids := sortedDedup r.involved_event_ids
            severity := r.severity
            confidence_score := r.confidence_score
            legal_basis := r.legal_basis
            recommended_action := r.recommended_action }

/-- Pydantic construction of the list field `contradictions`. -/
def constructContradictions : List RawContradiction → Except String (List Contradiction)
  | [] => .ok []
  | r :: rs =>
    match Contradiction.construct r with
    | .error e => .error e
    | .ok c =>
      match constructContradictions rs with
      | .error e => .error e
      | .ok cs => .ok (c :: cs)

/-- Pydantic construction of a `LogicAnalysisResult` (models.py):
nested contradictions, `total_contradictions_found >= 0`, risk-level closed
set. -/
def LogicAnalysisResult.construct (p : RawLogicPayload) :
    Except String LogicAnalysisResult :=
  match constructContradictions p.contradictions with
  | .error e => .error e
  | .ok cs =>
    if p.total_contradictions_found < 0 then
      .error "total_contradictions_found must be >= 0"
    else if !(riskLevelAllowed p.risk_level) then
      .error "risk_level must be one of HIGH, MEDIUM, LOW, NONE"
    else
      .ok { contradictions := cs
            total_contradictions_found := p.total_contradictions_found
            risk_level := p.risk_level
            analysis_notes := p.analysis_notes }

/-- Pydantic construction of a `TimelineResponse` (models.py): each event's
`source_page >= 1`, and `total_events_found >= 0`. -/
def TimelineResponse.construct (p : RawTimelinePayload) :
    Except String TimelineResponse :=
  if p.events.any (fun e => decide (e.source_page < 1)) then
    .error "source_page must be >= 1"
  else if p.total_events_found < 0 then
    .error "total_events_found must be >= 0"
  else
    .ok { events := p.events
          document_summary := p.document_summary
          total_events_found := p.total_events_found
          primary_jurisdiction := p.primary_jurisdiction
          case_number := p.case_number }

/-! ## Validation & repair pipeline
(`_parse_and_validate` in src/services/logic_analyzer.py and
src/services/llm_extractor.py) -/

/-- Index-bounds repair (logic_analyzer.py, lines 440-449): keep the ids in
`[0, total_events)`; if none survive, substitute `[0]`. -/
def clampIds (total_events : Nat) (ids : List Int) : List Int :=
  let valid_ids := ids.filter (fun i => decide (0 ≤ i) && decide (i < (total_events : Int)))
  if valid_ids.isEmpty then [0] else valid_ids

/-- The clamp applied to one raw contradiction dict.  (A dict missing the
`involved_event_ids` key is read as `[]` by `.get`, which the clamp then
also replaces with `[0]`; the embedding keeps the key always present.) -/
def clampContradiction (total_events : Nat) (r : RawContradiction) : RawContradiction :=
  { r with involved_event_ids := clampIds total_events r.involved_event_ids }

/-- The clamp loop over `data.get("contradictions", [])`. -/
def clampPayload (total_events : Nat) (p : RawLogicPayload) : RawLogicPayload :=
  { p with contradictions := p.contradictions.map (clampContradiction total_events) }

/-- Count-consistency repair (logic_analyzer.py, lines 457-465). -/
def fixLogicCount (r : LogicAnalysisResult) : LogicAnalysisResult :=
  if r.total_contradictions_found ≠ (r.contradictions.length : Int) then
    { r with total_contradictions_found := (r.contradictions.length : Int) }
  else r

/-- Count-consistency repair (llm_extractor.py, lines 396-404). -/
def fixTimelineCount (t : TimelineResponse) : TimelineResponse :=
  if t.total_events_found ≠ (t.events.length : Int) then
    { t with total_events_found := (t.events.length : Int) }
  else t

/-- Model of `_parse_and_validate` (logic_analyzer.py, lines 428-472) on an
already-JSON-parsed payload: clamp, pydantic construction, count repair. -/
def parseAndValidateLogic (p : RawLogicPayload) (total_events : Nat) :
    Except String LogicAnalysisResult :=
  match LogicAnalysisResult.construct (clampPayload total_events p) with
  | .error e => .error ("Logic analyzer response failed schema validation: " ++ e)
  | .ok result => .ok (fixLogicCount result)

/-- Model of `_parse_and_validate` (llm_extractor.py, lines 368-407) on an
already-JSON-parsed payload: pydantic construction, count repair. -/
def parseAndValidateTimeline (p : RawTimelinePayload) :
    Except String TimelineResponse :=
  match TimelineResponse.construct p with
  | .error e => .error ("OpenAI response failed schema validation: " ++ e)
  | .ok timeline => .ok (fixTimelineCount timeline)

/-! ## The cross-reference pass (`detect_contradictions`, logic_analyzer.py)

One outbound completion call is modelled by an `ApiOutcome`; the strict-mode
fallback (`_should_fallback_to_json_object`) consumes a second outcome.  The
pass result pairs the `Except` outcome with the number of outbound calls. -/

/-- Outcome of one outbound `client.chat.completions.create` call.
`transportError b` is a raised `OpenAIError`, `b` recording whether its
message matches one of the fallback markers; `emptyContent` is a response
with falsy `message.content`; `malformedJson` is content `json.loads`
rejects; `parsed p` is content parsing to payload `p`. -/
inductive ApiOutcome where
  | transportError (matchesFallbackMarker : Bool)
  | emptyContent
  | malformedJson
  | parsed (payload : RawLogicPayload)
deriving Repr, DecidableEq

/-- The two error kinds of §7: `validation` is a raised `ValueError`,
`provider` a propagated `OpenAIError`. -/
inductive PassError where
  | validation (msg : String)
  | provider
deriving Repr, DecidableEq

/-- The explanatory note of the empty-events early exit
(logic_analyzer.py, line 174). -/
def emptyTimelineNote : String :=
  "Zaman çizelgesinde olay bulunamadığı için çelişki analizi yapılamadı."

/-- The `ValueError` message for an empty response body
(logic_analyzer.py, lines 221-224). -/
def emptyResponseMsg : String :=
  "Logic analyzer received an empty response from OpenAI. This may be a transient API issue — please retry."

/-- The `ValueError` message for malformed JSON (logic_analyzer.py, line 438). -/
def malformedJsonMsg : String :=
  "Logic analyzer returned malformed JSON"

/-- Processing of one obtained (non-transport-failed) response body. -/
def processLogicResponse (o : ApiOutcome) (total_events : Nat) :
    Except PassError LogicAnalysisResult :=
  match o with
  | .transportError _ => .error .provider
  | .emptyContent => .error (.validation emptyResponseMsg)
  | .malformedJson => .error (.validation malformedJsonMsg)
  | .parsed p =>
    match parseAndValidateLogic p total_events with
    | .error e => .error (.validation e)
    | .ok r => .ok r

/-- Model of `detect_contradictions` (logic_analyzer.py, lines 146-234): early exit on
an empty event list (no outbound call); otherwise one call, with one retry in
relaxed mode when the strict schema is rejected.  The second component counts
outbound calls. -/
def detectContradictions (timeline : TimelineResponse) (o1 o2 : ApiOutcome) :
    Except PassError LogicAnalysisResult × Nat :=
  if timeline.events.isEmpty then
    (.ok { contradictions := []
           total_contradictions_found := 0
           risk_level := "NONE"
           analysis_notes := some emptyTimelineNote }, 0)
  else
    match o1 with
    | .transportError true => (processLogicResponse o2 timeline.events.length, 2)
    | .transportError false => (.error .provider, 1)
    | o => (processLogicResponse o timeline.events.length, 1)

/-! ## `/analyze/deep` after a successful extraction (main.py, lines 351-394) -/

/-- What the endpoint does after the cross-reference step: either raises an
`HTTPException` with a status code, or returns an `AnalysisResult`. -/
inductive DeepResponse where
  | raised (status : Nat)
  | ok (result : AnalysisResult)
deriving Repr, DecidableEq

/-- The degraded-mode explanatory note (main.py, lines 377-380). -/
def degradedNote : String :=
  "Çelişki analizi bir hata nedeniyle tamamlanamadı. Zaman çizelgesi başarıyla oluşturulmuştur."

/-- The degraded-mode `LogicAnalysisResult` (main.py, lines 373-381). -/
def degradedLogicResult : LogicAnalysisResult :=
  { contradictions := []
    total_contradictions_found := 0
    risk_level := "NONE"
    analysis_notes := some degradedNote }

/-- Step 3 and the merge of `analyze_document_deep` (main.py, lines 351-394):
a `ValueError` from `detect_contradictions` is re-raised as HTTP 422; any
other exception (in particular `OpenAIError`) triggers degraded mode. -/
def analyzeDeepAfterExtraction (timeline : TimelineResponse) (o1 o2 : ApiOutcome) :
    DeepResponse :=
  match (detectContradictions timeline o1 o2).1 with
  | .ok logic => .ok (AnalysisResult.from_phases timeline logic)
  | .error (.validation _) => .raised 422
  | .error .provider => .ok (AnalysisResult.from_phases timeline degradedLogicResult)

/-! ## Helper lemmas about construction and repair -/

theorem Contradiction.construct_ok_ids {r : RawContradiction} {c : Contradiction}
    (h : Contradiction.construct r = .ok c) :
    c.involved_event_ids = sortedDedup r.involved_event_ids ∧
    c.severity = r.severity := by
  unfold Contradiction.construct at h
  split at h
  · exact Except.noConfusion h
  · split at h
    · exact Except.noConfusion h
    · split at h
      · exact Except.noConfusion h
      · split at h
        · exact Except.noConfusion h
        · split at h
          · exact Except.noConfusion h
          · cases h
            exact ⟨rfl, rfl⟩

theorem constructContradictions_ok_length {rs : List RawContradiction}
    {cs : List Contradiction} (h : constructContradictions rs = .ok cs) :
    cs.length = rs.length := by
  induction rs generalizing cs with
  | nil =>
    unfold constructContradictions at h
    cases h
    rfl
  | cons r rest ih =>
    unfold constructContradictions at h
    cases hc : Contradiction.construct r with
    | error e => rw [hc] at h; exact Except.noConfusion h
    | ok c =>
      rw [hc] at h
      cases hrest : constructContradictions rest with
      | error e => rw [hrest] at h; exact Except.noConfusion h
      | ok cs' =>
        rw [hrest] at h
        cases h
        simp [ih hrest]

theorem constructContradictions_ok_mem {rs : List RawContradiction}
    {cs : List Contradiction} (h : constructContradictions rs = .ok cs) :
    ∀ c ∈ cs, ∃ r ∈ rs, Contradiction.construct r = .ok c := by
  induction rs generalizing cs with
  | nil =>
    unfold constructContradictions at h
    cases h
    intro c hc
    exact absurd hc (List.not_mem_nil c)
  | cons r rest ih =>
    unfold constructContradictions at h
    cases hc : Contradiction.construct r with
    | error e => rw [hc] at h; exact Except.noConfusion h
    | ok c0 =>
      rw [hc] at h
      cases hrest : constructContradictions rest with
      | error e => rw [hrest] at h; exact Except.noConfusion h
      | ok cs' =>
        rw [hrest] at h
        cases h
        intro c hcmem
        rcases List.mem_cons.mp hcmem with heq | htail
        · exact ⟨r, List.mem_cons_self r rest, heq ▸ hc⟩
        · obtain ⟨r', hr', hr'c⟩ := ih hrest c htail
          exact ⟨r', List.mem_cons_of_mem r hr', hr'c⟩

theorem constructContradictions_ok_get {rs : List RawContradiction}
    {cs : List Contradiction} (h : constructContradictions rs = .ok cs) :
    ∀ (k : Nat) (hk : k < rs.length) (hk' : k < cs.length),
      Contradiction.construct (rs.get ⟨k, hk⟩) = .ok (cs.get ⟨k, hk'⟩) := by
  induction rs generalizing cs with
  | nil =>
    intro k hk
    exact absurd hk (Nat.not_lt_zero k)
  | cons r rest ih =>
    unfold constructContradictions at h
    cases hc : Contradiction.construct r with
    | error e => rw [hc] at h; exact Except.noConfusion h
    | ok c0 =>
      rw [hc] at h
      cases hrest : constructContradictions rest with
      | error e => rw [hrest] at h; exact Except.noConfusion h
      | ok cs' =>
        rw [hrest] at h
        cases h
        intro k hk hk'
        cases k with
        | zero => exact hc
        | succ k => exact ih hrest k (Nat.lt_of_succ_lt_succ hk) (Nat.lt_of_succ_lt_succ hk')

theorem LogicAnalysisResult.construct_ok_fields {p : RawLogicPayload}
    {r : LogicAnalysisResult} (h : LogicAnalysisResult.construct p = .ok r) :
    constructContradictions p.contradictions = .ok r.contradictions ∧
    r.total_contradictions_found = p.total_contradictions_found ∧
    r.risk_level = p.risk_level ∧
    riskLevelAllowed r.risk_level = true ∧
    r.analysis_notes = p.analysis_notes := by
  unfold LogicAnalysisResult.construct at h
  cases hcs : constructContradictions p.contradictions with
  | error e => rw [hcs] at h; exact Except.noConfusion h
  | ok cs =>
    rw [hcs] at h
    dsimp only at h
    by_cases htot : p.total_contradictions_found < 0
    · rw [if_pos htot] at h
      exact Except.noConfusion h
    · rw [if_neg htot] at h
      cases hrisk : riskLevelAllowed p.risk_level with
      | false =>
        rw [hrisk] at h
        exact Except.noConfusion h
      | true =>
        rw [hrisk] at h
        rw [if_neg (by decide)] at h
        cases h
        exact ⟨rfl, rfl, rfl, hrisk, rfl⟩

theorem fixLogicCount_spec (r : LogicAnalysisResult) :
    (fixLogicCount r).contradictions = r.contradictions ∧
    (fixLogicCount r).risk_level = r.risk_level ∧
    (fixLogicCount r).analysis_notes = r.analysis_notes ∧
    (fixLogicCount r).total_contradictions_found =
      ((fixLogicCount r).contradictions.length : Int) := by
  unfold fixLogicCount
  split
  · exact ⟨rfl, rfl, rfl, rfl⟩
  · rename_i hne
    exact ⟨rfl, rfl, rfl, not_not.mp hne⟩

theorem fixTimelineCount_spec (t : TimelineResponse) :
    (fixTimelineCount t).events = t.events ∧
    (fixTimelineCount t).total_events_found =
      ((fixTimelineCount t).events.length : Int) := by
  unfold fixTimelineCount
  split
  · exact ⟨rfl, rfl⟩
  · rename_i hne
    exact ⟨rfl, not_not.mp hne⟩

theorem parseAndValidateLogic_ok {p : RawLogicPayload} {n : Nat}
    {r : LogicAnalysisResult} (h : parseAndValidateLogic p n = .ok r) :
    ∃ r0, LogicAnalysisResult.construct (clampPayload n p) = .ok r0 ∧
      r = fixLogicCount r0 := by
  unfold parseAndValidateLogic at h
  cases hc : LogicAnalysisResult.construct (clampPayload n p) with
  | error e => rw [hc] at h; exact Except.noConfusion h
  | ok r0 =>
    rw [hc] at h
    cases h
    exact ⟨r0, rfl, rfl⟩

theorem parseAndValidateTimeline_ok {p : RawTimelinePayload}
    {t : TimelineResponse} (h : parseAndValidateTimeline p = .ok t) :
    ∃ t0, TimelineResponse.construct p = .ok t0 ∧ t = fixTimelineCount t0 := by
  unfold parseAndValidateTimeline at h
  cases hc : TimelineResponse.construct p with
  | error e => rw [hc] at h; exact Except.noConfusion h
  | ok t0 =>
    rw [hc] at h
    cases h
    exact ⟨t0, rfl, rfl⟩

theorem clampIds_ne_nil (n : Nat) (ids : List Int) : clampIds n ids ≠ [] := by
  simp only [clampIds]
  split
  · simp
  · rename_i hne
    simpa [List.isEmpty_iff] using hne

theorem clampIds_mem_bounds {n : Nat} (hn : 1 ≤ n) (ids : List Int) :
    ∀ i ∈ clampIds n ids, 0 ≤ i ∧ i < (n : Int) := by
  intro i hi
  simp only [clampIds] at hi
  split at hi
  · simp at hi
    subst hi
    constructor
    · exact le_refl 0
    · exact_mod_cast Nat.lt_of_lt_of_le Nat.zero_lt_one hn
  · have := (List.mem_filter.mp hi).2
    simp at this
    exact this

theorem processLogicResponse_ok {o : ApiOutcome} {n : Nat}
    {r : LogicAnalysisResult} (h : processLogicResponse o n = .ok r) :
    ∃ p, parseAndValidateLogic p n = .ok r := by
  cases o with
  | transportError b => exact Except.noConfusion h
  | emptyContent => exact Except.noConfusion h
  | malformedJson => exact Except.noConfusion h
  | parsed p =>
    simp only [processLogicResponse] at h
    cases hp : parseAndValidateLogic p n with
    | error e => rw [hp] at h; exact Except.noConfusion h
    | ok r0 =>
      rw [hp] at h
      cases h
      exact ⟨p, hp⟩

theorem constructContradictions_zip {rs : List RawContradiction}
    {cs : List Contradiction} (h : constructContradictions rs = .ok cs) :
    ∀ pr ∈ rs.zip cs, Contradiction.construct pr.1 = .ok pr.2 := by
  induction rs generalizing cs with
  | nil =>
    intro pr hpr
    simp at hpr
  | cons r rest ih =>
    unfold constructContradictions at h
    cases hc : Contradiction.construct r with
    | error e => rw [hc] at h; exact Except.noConfusion h
    | ok c0 =>
      rw [hc] at h
      cases hrest : constructContradictions rest with
      | error e => rw [hrest] at h; exact Except.noConfusion h
      | ok cs' =>
        rw [hrest] at h
        cases h
        intro pr hpr
        rw [List.zip_cons_cons] at hpr
        rcases List.mem_cons.mp hpr with heq | htail
        · rw [heq]; exact hc
        · exact ih hrest pr htail

theorem parseLogic_ids_props {p : RawLogicPayload} {n : Nat}
    {r : LogicAnalysisResult} (hn : 1 ≤ n)
    (h : parseAndValidateLogic p n = .ok r) :
    ∀ c ∈ r.contradictions,
      c.involved_event_ids ≠ [] ∧
      c.involved_event_ids.Sorted (· < ·) ∧
      ∀ i ∈ c.involved_event_ids, 0 ≤ i ∧ i < (n : Int) := by
  obtain ⟨r0, hc, hr⟩ := parseAndValidateLogic_ok h
  intro c hcmem
  rw [hr, (fixLogicCount_spec r0).1] at hcmem
  have hok := (LogicAnalysisResult.construct_ok_fields hc).1
  obtain ⟨raw, hrawmem, hrawok⟩ := constructContradictions_ok_mem hok c hcmem
  simp only [clampPayload] at hrawmem
  obtain ⟨orig, horig, heq⟩ := List.mem_map.mp hrawmem
  have hids : c.involved_event_ids = sortedDedup (clampIds n orig.involved_event_ids) := by
    have hi := (Contradiction.construct_ok_ids hrawok).1
    rw [hi, ← heq]
    rfl
  refine ⟨?_, ?_, ?_⟩
  · rw [hids]
    exact sortedDedup_ne_nil (clampIds_ne_nil n _)
  · rw [hids]
    exact sortedDedup_sorted_lt _
  · intro i hi
    rw [hids] at hi
    exact clampIds_mem_bounds hn _ i (mem_sortedDedup.mp hi)

/-! ## Concrete fixtures used by counterexamples and witnesses -/

/-- A concrete valid event (`source_page = 1`). -/
def evA : TimelineEvent :=
  { date := "2020-01-01", description := "Dava açıldı.", source_page := 1,
    entities := ["Davacı"], category := "Mahkeme İşlemi", significance := none }

/-- A concrete extraction result with three events. -/
def tEx3 : TimelineResponse :=
  { events := [evA, evA, evA], document_summary := "Özet.",
    total_events_found := 3, primary_jurisdiction := none, case_number := none }

/-- A concrete extraction result with no events. -/
def tEmpty : TimelineResponse :=
  { events := [], document_summary := "Özet.", total_events_found := 0,
    primary_jurisdiction := none, case_number := none }

/-- A parseable payload declaring `risk_level = "HIGH"` with no contradictions. -/
def riskOnlyPayload : RawLogicPayload :=
  { contradictions := [], total_contradictions_found := 0,
    risk_level := "HIGH", analysis_notes := none }

/-- What the pipeline returns for `riskOnlyPayload`. -/
def riskOnlyResult : LogicAnalysisResult :=
  { contradictions := [], total_contradictions_found := 0,
    risk_level := "HIGH", analysis_notes := none }

/-- A raw contradiction with one in-range involved id. -/
def rcEx : RawContradiction :=
  { title := "Tutar uyuşmazlığı", contradiction_type := "MISSING_INFO",
    description := "Açıklama", involved_event_ids := [0], severity := "LOW",
    confidence_score := 1, legal_basis := none, recommended_action := none }

/-- A payload with one contradiction and a wrong declared count. -/
def qLogicEx : RawLogicPayload :=
  { contradictions := [rcEx], total_contradictions_found := 7,
    risk_level := "LOW", analysis_notes := none }

/-- The validated contradiction the pipeline produces from `rcEx`. -/
def cEx : Contradiction :=
  { title := "Tutar uyuşmazlığı", contradiction_type := .MISSING_INFO,
    description := "Açıklama", involved_event_ids := [0], severity := "LOW",
    confidence_score := 1, legal_basis := none, recommended_action := none }

/-- What the pipeline returns for `qLogicEx` (count repaired to 1). -/
def rLogicEx : LogicAnalysisResult :=
  { contradictions := [cEx], total_contradictions_found := 1,
    risk_level := "LOW", analysis_notes := none }

/-- A raw timeline payload with one event and a wrong declared count. -/
def pTimelineEx : RawTimelinePayload :=
  { events := [evA], document_summary := "Özet.", total_events_found := 5,
    primary_jurisdiction := none, case_number := none }

/-- What the extraction pipeline returns for `pTimelineEx`. -/
def tTimelineEx : TimelineResponse :=
  { events := [evA], document_summary := "Özet.", total_events_found := 1,
    primary_jurisdiction := none, case_number := none }

/-- A raw timeline payload declaring a negative event count. -/
def pNegTimeline : RawTimelinePayload :=
  { events := [], document_summary := "", total_events_found := -1,
    primary_jurisdiction := none, case_number := none }

/-- A raw logic payload declaring a negative contradiction count. -/
def qNegLogic : RawLogicPayload :=
  { contradictions := [], total_contradictions_found := -1,
    risk_level := "NONE", analysis_notes := none }

/-- An empty NONE-risk logic result with no note. -/
def emptyLogicResultNone : LogicAnalysisResult :=
  { contradictions := [], total_contradictions_found := 0,
    risk_level := "NONE", analysis_notes := none }

/-- A raw contradiction all of whose indices are invalid for 3 events. -/
def rcAllInvalid : RawContradiction :=
  { title := "Sıra hatası", contradiction_type := "FACTUAL_ERROR",
    description := "Açıklama", involved_event_ids := [5, 7],
    severity := "HIGH", confidence_score := 1, legal_basis := none,
    recommended_action := none }

/-- A payload carrying only `rcAllInvalid`. -/
def qAllInvalid : RawLogicPayload :=
  { contradictions := [rcAllInvalid], total_contradictions_found := 1,
    risk_level := "HIGH", analysis_notes := none }

/-- The repaired contradiction: all-invalid ids replaced by `[0]`. -/
def cRepaired : Contradiction :=
  { title := "Sıra hatası", contradiction_type := .FACTUAL_ERROR,
    description := "Açıklama", involved_event_ids := [0],
    severity := "HIGH", confidence_score := 1, legal_basis := none,
    recommended_action := none }

/-- What the pipeline returns for `qAllInvalid` over 3 events. -/
def rAllInvalid : LogicAnalysisResult :=
  { contradictions := [cRepaired], total_contradictions_found := 1,
    risk_level := "HIGH", analysis_notes := none }

/-! ## Claims -/

/-- C1, counterexample: the cross-reference pass returns a result whose
`risk_level` is `"HIGH"` although its contradictions list is empty, so
`risk_level == "NONE"` iff empty (and `"HIGH"` iff a HIGH-severity
contradiction exists) fails: the risk level is not derived from the
contradictions' severities. -/
theorem risk_level_not_derived_cex :
    (detectContradictions tEx3 (.parsed riskOnlyPayload) (.parsed riskOnlyPayload)).1 =
      .ok riskOnlyResult ∧
    riskOnlyResult.contradictions = [] ∧
    riskOnlyResult.risk_level = "HIGH" :=
  ⟨rfl, rfl, rfl⟩

/-- C1, amended: the pass only validates `risk_level` for membership in the
closed set {HIGH, MEDIUM, LOW, NONE} (`validate_risk_level`) and otherwise
passes the payload's declared value through unchanged; no derivation from
the maximum contradiction severity is enforced. -/
theorem risk_level_closed_set_passthrough (p : RawLogicPayload) (n : Nat)
    (r : LogicAnalysisResult) (h : parseAndValidateLogic p n = .ok r) :
    (r.risk_level = "HIGH" ∨ r.risk_level = "MEDIUM" ∨ r.risk_level = "LOW" ∨
      r.risk_level = "NONE") ∧
    r.risk_level = p.risk_level := by
  obtain ⟨r0, hc, hr⟩ := parseAndValidateLogic_ok h
  have hok := LogicAnalysisResult.construct_ok_fields hc
  have hrisk : r.risk_level = r0.risk_level := by
    rw [hr]; exact (fixLogicCount_spec r0).2.1
  constructor
  · have hmem := hok.2.2.2.1
    rw [hrisk]
    simpa [riskLevelAllowed, Bool.or_eq_true, decide_eq_true_eq, or_assoc] using hmem
  · rw [hrisk, hok.2.2.1]
    rfl

/-- C1 witness: the amended theorem applied to `riskOnlyPayload`. -/
theorem risk_level_closed_set_passthrough_witness :
    (riskOnlyResult.risk_level = "HIGH" ∨ riskOnlyResult.risk_level = "MEDIUM" ∨
      riskOnlyResult.risk_level = "LOW" ∨ riskOnlyResult.risk_level = "NONE") ∧
    riskOnlyResult.risk_level = riskOnlyPayload.risk_level :=
  risk_level_closed_set_passthrough riskOnlyPayload 3 riskOnlyResult rfl

/-- C2, counterexample: a cross-reference failure of the validation kind
(`ValueError`, here an empty response body) makes `analyze_document_deep`
raise HTTP 422 instead of degrading, contradicting the claim that both
`ProviderError` and `ValidationError` are converted to the degraded result. -/
theorem deep_raises_on_validation_error_cex :
    (detectContradictions tEx3 .emptyContent .emptyContent).1 =
      .error (.validation emptyResponseMsg) ∧
    analyzeDeepAfterExtraction tEx3 .emptyContent .emptyContent = .raised 422 :=
  ⟨rfl, rfl⟩

/-- C2, amended: only a `ProviderError` (a non-`ValueError` exception) on the
cross-reference pass is converted to the degraded result, which carries the
extraction data unchanged, an empty contradictions list, risk `"NONE"` and a
non-empty explanatory note; a `ValidationError` is re-raised as HTTP 422. -/
theorem deep_degrades_on_provider_error (t : TimelineResponse)
    (o1 o2 : ApiOutcome)
    (h : (detectContradictions t o1 o2).1 = .error .provider) :
    analyzeDeepAfterExtraction t o1 o2 =
      .ok { events := t.events
            document_summary := t.document_summary
            total_events_found := t.total_events_found
            primary_jurisdiction := t.primary_jurisdiction
            case_number := t.case_number
            contradictions := []
            total_contradictions_found := 0
            risk_level := "NONE"
            analysis_notes := some degradedNote } ∧
    degradedNote ≠ "" := by
  refine ⟨?_, by decide⟩
  unfold analyzeDeepAfterExtraction
  rw [h]
  rfl

/-- C2 witness: a provider failure (transport error whose message matches no
fallback marker) degrades. -/
theorem deep_degrades_on_provider_error_witness :
    analyzeDeepAfterExtraction tEx3 (.transportError false) .emptyContent =
      .ok { events := tEx3.events
            document_summary := tEx3.document_summary
            total_events_found := tEx3.total_events_found
            primary_jurisdiction := tEx3.primary_jurisdiction
            case_number := tEx3.case_number
            contradictions := []
            total_contradictions_found := 0
            risk_level := "NONE"
            analysis_notes := some degradedNote } ∧
    degradedNote ≠ "" :=
  deep_degrades_on_provider_error tEx3 (.transportError false) .emptyContent rfl

/-- C3: on any parseable payload, for every event count `n >= 1`, each
contradiction whose referenced indices are all outside `[0, n)` is repaired
(before domain validation) to `involved_event_ids = [0]` rather than being
rejected or dropped: the pass succeeds with as many contradictions as the
payload declared, and the repaired contradiction carries `[0]`. -/
theorem all_invalid_ids_become_zero (p : RawLogicPayload) (n : Nat)
    (hn : 1 ≤ n) (r : LogicAnalysisResult)
    (h : parseAndValidateLogic p n = .ok r) :
    r.contradictions.length = p.contradictions.length ∧
    ∀ pr ∈ p.contradictions.zip r.contradictions,
      (∀ i ∈ pr.1.involved_event_ids, i < 0 ∨ (n : Int) ≤ i) →
      pr.2.involved_event_ids = [0] := by
  obtain ⟨r0, hc, hr⟩ := parseAndValidateLogic_ok h
  have hcl : r.contradictions = r0.contradictions := by
    rw [hr]; exact (fixLogicCount_spec r0).1
  have hok := (LogicAnalysisResult.construct_ok_fields hc).1
  have hlen : r0.contradictions.length = p.contradictions.length := by
    have hl := constructContradictions_ok_length hok
    simpa [clampPayload] using hl
  refine ⟨by rw [hcl, hlen], ?_⟩
  intro pr hpr hall
  rw [hcl] at hpr
  have hmem2 : (clampContradiction n pr.1, pr.2) ∈
      ((p.contradictions.map (clampContradiction n)).zip r0.contradictions) := by
    rw [List.zip_map_left]
    exact List.mem_map_of_mem _ hpr
  have hcons := constructContradictions_zip hok _ hmem2
  have hids := (Contradiction.construct_ok_ids hcons).1
  have hfilter : pr.1.involved_event_ids.filter
      (fun i => decide (0 ≤ i) && decide (i < (n : Int))) = [] := by
    rw [List.filter_eq_nil_iff]
    intro a ha
    rcases hall a ha with h1 | h2
    · simp only [Bool.and_eq_true, decide_eq_true_eq, not_and]
      intro h0
      omega
    · simp only [Bool.and_eq_true, decide_eq_true_eq, not_and]
      intro h0
      omega
  have hclamp : clampIds n pr.1.involved_event_ids = [0] := by
    simp [clampIds, hfilter]
  rw [hids]
  show sortedDedup (clampIds n pr.1.involved_event_ids) = [0]
  rw [hclamp]
  decide

/-- C3 witness: ids `[5, 7]` against 3 events are repaired to `[0]`. -/
theorem all_invalid_ids_become_zero_witness :
    rAllInvalid.contradictions.length = qAllInvalid.contradictions.length ∧
    cRepaired.involved_event_ids = [0] :=
  have hmain := all_invalid_ids_become_zero qAllInvalid 3 (by decide) rAllInvalid rfl
  ⟨hmain.1, hmain.2 (rcAllInvalid, cRepaired) (by decide) (by decide)⟩

/-- C4: after repair, both passes return objects whose declared count equals
the actual list length: `total_events_found == len(events)` and
`total_contradictions_found == len(contradictions)`, even when the payload
declared different numbers. -/
theorem counts_match_lengths (p : RawTimelinePayload) (q : RawLogicPayload)
    (n : Nat) (t : TimelineResponse) (r : LogicAnalysisResult)
    (h1 : parseAndValidateTimeline p = .ok t)
    (h2 : parseAndValidateLogic q n = .ok r) :
    t.total_events_found = (t.events.length : Int) ∧
    r.total_contradictions_found = (r.contradictions.length : Int) := by
  constructor
  · obtain ⟨t0, hc, ht⟩ := parseAndValidateTimeline_ok h1
    rw [ht]
    exact (fixTimelineCount_spec t0).2
  · obtain ⟨r0, hc, hr⟩ := parseAndValidateLogic_ok h2
    rw [hr]
    exact (fixLogicCount_spec r0).2.2.2

/-- C4 witness: payloads declaring 5 events (actually 1) and 7
contradictions (actually 1) come back with counts 1 and 1. -/
theorem counts_match_lengths_witness :
    tTimelineEx.total_events_found = (tTimelineEx.events.length : Int) ∧
    rLogicEx.total_contradictions_found = (rLogicEx.contradictions.length : Int) :=
  counts_match_lengths pTimelineEx qLogicEx 3 tTimelineEx rLogicEx rfl rfl

/-- C5: every contradiction in a result produced by the cross-reference pass
over an event list of length `n` has a non-empty, strictly ascending
(hence duplicate-free) `involved_event_ids` list whose every element lies in
`[0, n)`. -/
theorem contradiction_ids_wellformed (t : TimelineResponse)
    (o1 o2 : ApiOutcome) (r : LogicAnalysisResult)
    (h : (detectContradictions t o1 o2).1 = .ok r) :
    ∀ c ∈ r.contradictions,
      c.involved_event_ids ≠ [] ∧
      c.involved_event_ids.Sorted (· < ·) ∧
      ∀ i ∈ c.involved_event_ids, 0 ≤ i ∧ i < (t.events.length : Int) := by
  unfold detectContradictions at h
  by_cases hemp : t.events.isEmpty
  · rw [if_pos hemp] at h
    cases h
    intro c hc
    exact absurd hc (List.not_mem_nil c)
  · rw [if_neg hemp] at h
    have hn : 1 ≤ t.events.length := by
      rcases hev : t.events with _ | ⟨e, es⟩
      · rw [hev] at hemp; simp at hemp
      · simp
    cases o1 with
    | transportError b =>
      cases b with
      | true =>
        dsimp only at h
        obtain ⟨p, hp⟩ := processLogicResponse_ok h
        exact parseLogic_ids_props hn hp
      | false =>
        dsimp only at h
        exact Except.noConfusion h
    | emptyContent =>
      dsimp only at h
      exact Except.noConfusion h
    | malformedJson =>
      dsimp only at h
      exact Except.noConfusion h
    | parsed p0 =>
      dsimp only at h
      obtain ⟨p, hp⟩ := processLogicResponse_ok h
      exact parseLogic_ids_props hn hp

/-- C5 witness: the invariant instantiated on a concrete pass run. -/
theorem contradiction_ids_wellformed_witness :
    cEx.involved_event_ids ≠ [] ∧
    cEx.involved_event_ids.Sorted (· < ·) ∧
    (0 ≤ (0 : Int) ∧ (0 : Int) < (tEx3.events.length : Int)) :=
  have hmain := contradiction_ids_wellformed tEx3 (.parsed qLogicEx)
    .emptyContent rLogicEx rfl cEx (by decide)
  ⟨hmain.1, hmain.2.1, hmain.2.2 0 (by decide)⟩

/-- C6: with an empty input event list the cross-reference operation makes
zero outbound calls and returns the empty result: no contradictions, count
0, risk `"NONE"`, and a non-empty explanatory note. -/
theorem empty_events_early_exit (t : TimelineResponse) (o1 o2 : ApiOutcome)
    (h : t.events = []) :
    detectContradictions t o1 o2 =
      (.ok { contradictions := []
             total_contradictions_found := 0
             risk_level := "NONE"
             analysis_notes := some emptyTimelineNote }, 0) ∧
    emptyTimelineNote ≠ "" := by
  refine ⟨?_, by decide⟩
  unfold detectContradictions
  rw [h]
  rfl

/-- C6 witness: the early exit on a concrete empty timeline. -/
theorem empty_events_early_exit_witness :
    detectContradictions tEmpty .malformedJson (.transportError true) =
      (.ok { contradictions := []
             total_contradictions_found := 0
             risk_level := "NONE"
             analysis_notes := some emptyTimelineNote }, 0) ∧
    emptyTimelineNote ≠ "" :=
  empty_events_early_exit tEmpty .malformedJson (.transportError true) rfl

/-- C8: the result merge is a pure deterministic field union: re-running it
on the same inputs yields a structurally identical value, and every field of
the merged result equals the corresponding input field unchanged. -/
theorem from_phases_pure_field_union (t : TimelineResponse)
    (l : LogicAnalysisResult) :
    AnalysisResult.from_phases t l = AnalysisResult.from_phases t l ∧
    (AnalysisResult.from_phases t l).events = t.events ∧
    (AnalysisResult.from_phases t l).document_summary = t.document_summary ∧
    (AnalysisResult.from_phases t l).total_events_found = t.total_events_found ∧
    (AnalysisResult.from_phases t l).primary_jurisdiction = t.primary_jurisdiction ∧
    (AnalysisResult.from_phases t l).case_number = t.case_number ∧
    (AnalysisResult.from_phases t l).contradictions = l.contradictions ∧
    (AnalysisResult.from_phases t l).total_contradictions_found =
      l.total_contradictions_found ∧
    (AnalysisResult.from_phases t l).risk_level = l.risk_level ∧
    (AnalysisResult.from_phases t l).analysis_notes = l.analysis_notes :=
  ⟨rfl, rfl, rfl, rfl, rfl, rfl, rfl, rfl, rfl, rfl⟩

/-- C9: a payload declaring a negative `total_events_found`
(resp. `total_contradictions_found`) is rejected by pydantic construction —
the non-negativity bound is checked before the count-consistency repair, so
the count is never silently corrected for negative declarations. -/
theorem negative_counts_rejected (p : RawTimelinePayload) (q : RawLogicPayload)
    (n : Nat) (h1 : p.total_events_found < 0)
    (h2 : q.total_contradictions_found < 0) :
    (∀ t, parseAndValidateTimeline p ≠ .ok t) ∧
    (∀ r, parseAndValidateLogic q n ≠ .ok r) := by
  constructor
  · intro t ht
    obtain ⟨t0, hc, _⟩ := parseAndValidateTimeline_ok ht
    unfold TimelineResponse.construct at hc
    by_cases hany : (p.events.any fun e => decide (e.source_page < 1)) = true
    · rw [if_pos hany] at hc
      exact Except.noConfusion hc
    · rw [if_neg hany, if_pos h1] at hc
      exact Except.noConfusion hc
  · intro r hr
    obtain ⟨r0, hc, _⟩ := parseAndValidateLogic_ok hr
    unfold LogicAnalysisResult.construct at hc
    cases hcs : constructContradictions (clampPayload n q).contradictions with
    | error e => rw [hcs] at hc; exact Except.noConfusion hc
    | ok cs =>
      rw [hcs] at hc
      dsimp only at hc
      rw [if_pos (show (clampPayload n q).total_contradictions_found < 0 from h2)] at hc
      exact Except.noConfusion hc

/-- C9 witness: payloads declaring `-1` are rejected by both passes. -/
theorem negative_counts_rejected_witness :
    parseAndValidateTimeline pNegTimeline ≠ .ok tEmpty ∧
    parseAndValidateLogic qNegLogic 1 ≠ .ok emptyLogicResultNone :=
  ⟨(negative_counts_rejected pNegTimeline qNegLogic 1 (by decide) (by decide)).1 tEmpty,
   (negative_counts_rejected pNegTimeline qNegLogic 1 (by decide) (by decide)).2
     emptyLogicResultNone⟩

/-! ## Strict JSON-schema builders
(`_build_json_schema` in llm_extractor.py, `_build_logic_json_schema` in
logic_analyzer.py)

The schema dicts are embedded as `JVal` values, key for key and in source
order; the prose-only `"description"` and `"examples"` entries are omitted
(they carry no schema semantics and no claim mentions them).  The category
enum strings are transcribed byte-for-byte from the source file, which
stores them double-encoded. -/

/-- A JSON value as used by the schema dicts. -/
inductive JVal where
  | str (s : String)
  | bool (b : Bool)
  | arr (elems : List JVal)
  | obj (fields : List (String × JVal))
deriving Repr

/-- Dictionary key lookup. -/
def jLookup : List (String × JVal) → String → Option JVal
  | [], _ => none
  | (k, v) :: rest, key => if k = key then some v else jLookup rest key

/-- Reads an all-string JSON array. -/
def strListOf : List JVal → Option (List String)
  | [] => some []
  | .str s :: rest => (strListOf rest).map (s :: ·)
  | _ => none

/-- Does this dict describe an object type (`"type": "object"`)? -/
def isObjectTypeNode (fs : List (String × JVal)) : Bool :=
  match jLookup fs "type" with
  | some (.str "object") => true
  | _ => false

/-- The entry `"additionalProperties": false` is present on this dict. -/
def additionalPropertiesFalse (fs : List (String × JVal)) : Bool :=
  match jLookup fs "additionalProperties" with
  | some (.bool false) => true
  | _ => false

/-- The `"required"` list names exactly the `"properties"` keys. -/
def requiredEqualsProperties (fs : List (String × JVal)) : Bool :=
  match jLookup fs "required", jLookup fs "properties" with
  | some (.arr req), some (.obj props) =>
    match strListOf req with
    | some names => decide (names = props.map Prod.fst)
    | none => false
  | _, _ => false

/-- Rule an object-type schema node must satisfy in strict mode. -/
def strictNodeRule (fs : List (String × JVal)) : Bool :=
  if isObjectTypeNode fs then
    additionalPropertiesFalse fs && requiredEqualsProperties fs
  else true

/-- Recursive strict-mode check over a whole schema tree: every
object-type node (at any nesting level) has `additionalProperties: false`
and lists every declared property as required.  The fuel argument only
makes the recursion structural; any fuel at least the tree depth gives the
same answer on a concrete schema. -/
def strictOkFuel : Nat → JVal → Bool
  | 0, _ => false
  | fuel + 1, .obj fs =>
    strictNodeRule fs && fs.all (fun kv => strictOkFuel fuel kv.2)
  | fuel + 1, .arr xs => xs.all (strictOkFuel fuel)
  | _ + 1, _ => true

/-- The schema node of a named property of an object schema. -/
def propertyNode (v : JVal) (name : String) : Option JVal :=
  match v with
  | .obj fs =>
    match jLookup fs "properties" with
    | some (.obj props) => jLookup props name
    | _ => none
  | _ => none

/-- The `"type"` entry of a schema node. -/
def typeOf (v : JVal) : Option JVal :=
  match v with
  | .obj fs => jLookup fs "type"
  | _ => none

/-- The `"enum"` entry of a schema node, as a string list. -/
def enumOf (v : JVal) : Option (List String) :=
  match v with
  | .obj fs =>
    match jLookup fs "enum" with
    | some (.arr xs) => strListOf xs
    | _ => none
  | _ => none

/-- The `"items"` entry of a schema node. -/
def itemsOf (v : JVal) : Option JVal :=
  match v with
  | .obj fs => jLookup fs "items"
  | _ => none

/-- The event item schema inside `_build_json_schema` (llm_extractor.py,
lines 259-309). -/
def timelineEventItemSchema : JVal :=
  .obj [
    ("type", .str "object"),
    ("additionalProperties", .bool false),
    ("required", .arr [.str "date", .str "description", .str "source_page",
      .str "entities", .str "category", .str "significance"]),
    ("properties", .obj [
      ("date", .obj [("type", .str "string")]),
      ("description", .obj [("type", .str "string")]),
      ("source_page", .obj [("type", .str "integer")]),
      ("entities", .obj [("type", .str "array"),
        ("items", .obj [("type", .str "string")])]),
      ("category", .obj [("type", .str "string"),
        ("enum", .arr [.str "Mahkeme Ä°ÅŸlemi", .str "TanÄ±k Ä°fadesi",
          .str "Olay AnÄ±", .str "SÃ¶zleÅŸme / AnlaÅŸma",
          .str "DilekÃ§e / BaÅŸvuru", .str "Karar / HÃ¼kÃ¼m",
          .str "Tebligat / Bildirim", .str "Ä°dari Ä°ÅŸlem",
          .str "Ä°cra Takibi", .str "DiÄŸer"])]),
      ("significance", .obj [("type", .arr [.str "string", .str "null"])])
    ])
  ]

/-- Model of `_build_json_schema` (llm_extractor.py, lines 234-328). -/
def timelineSchema : JVal :=
  .obj [
    ("type", .str "object"),
    ("additionalProperties", .bool false),
    ("required", .arr [.str "events", .str "document_summary",
      .str "total_events_found", .str "primary_jurisdiction",
      .str "case_number"]),
    ("properties", .obj [
      ("events", .obj [("type", .str "array"),
        ("items", timelineEventItemSchema)]),
      ("document_summary", .obj [("type", .str "string")]),
      ("total_events_found", .obj [("type", .str "integer")]),
      ("primary_jurisdiction", .obj [("type", .arr [.str "string", .str "null"])]),
      ("case_number", .obj [("type", .arr [.str "string", .str "null"])])
    ])
  ]

/-- The contradiction item schema inside `_build_logic_json_schema`
(logic_analyzer.py, lines 315-365). -/
def contradictionSchema : JVal :=
  .obj [
    ("type", .str "object"),
    ("additionalProperties", .bool false),
    ("required", .arr [.str "title", .str "contradiction_type",
      .str "description", .str "involved_event_ids", .str "severity",
      .str "confidence_score", .str "legal_basis", .str "recommended_action"]),
    ("properties", .obj [
      ("title", .obj [("type", .str "string")]),
      ("contradiction_type", .obj [("type", .str "string"),
        ("enum", .arr [.str "FACTUAL_ERROR", .str "WITNESS_CONFLICT",
          .str "TIMELINE_IMPOSSIBILITY", .str "MISSING_INFO"])]),
      ("description", .obj [("type", .str "string")]),
      ("involved_event_ids", .obj [("type", .str "array"),
        ("items", .obj [("type", .str "integer")])]),
      ("severity", .obj [("type", .str "string"),
        ("enum", .arr [.str "HIGH", .str "MEDIUM", .str "LOW"])]),
      ("confidence_score", .obj [("type", .str "number")]),
      ("legal_basis", .obj [("type", .arr [.str "string", .str "null"])]),
      ("recommended_action", .obj [("type", .arr [.str "string", .str "null"])])
    ])
  ]

/-- Model of `_build_logic_json_schema` (logic_analyzer.py, lines 300-396). -/
def logicSchema : JVal :=
  .obj [
    ("type", .str "object"),
    ("additionalProperties", .bool false),
    ("required", .arr [.str "contradictions",
      .str "total_contradictions_found", .str "risk_level",
      .str "analysis_notes"]),
    ("properties", .obj [
      ("contradictions", .obj [("type", .str "array"),
        ("items", contradictionSchema)]),
      ("total_contradictions_found", .obj [("type", .str "integer")]),
      ("risk_level", .obj [("type", .str "string"),
        ("enum", .arr [.str "HIGH", .str "MEDIUM", .str "LOW", .str "NONE"])]),
      ("analysis_notes", .obj [("type", .arr [.str "string", .str "null"])])
    ])
  ]

/-- C7: both constrained-decoding schemas pass the recursive strict-mode
check — every object-type node, at every nesting level, carries
`additionalProperties: false` and lists every declared property as
required; nullable fields are typed `["string", "null"]` rather than
omitted; and the four closed-set fields (category, contradiction type,
severity, risk level) are enumerated as fixed value lists. -/
theorem schemas_strict_and_closed_sets :
    strictOkFuel 16 timelineSchema = true ∧
    strictOkFuel 16 logicSchema = true ∧
    (propertyNode timelineSchema "events").bind itemsOf =
      some timelineEventItemSchema ∧
    (propertyNode logicSchema "contradictions").bind itemsOf =
      some contradictionSchema ∧
    (propertyNode timelineEventItemSchema "category").bind enumOf =
      some ["Mahkeme Ä°ÅŸlemi", "TanÄ±k Ä°fadesi", "Olay AnÄ±",
        "SÃ¶zleÅŸme / AnlaÅŸma", "DilekÃ§e / BaÅŸvuru", "Karar / HÃ¼kÃ¼m",
        "Tebligat / Bildirim", "Ä°dari Ä°ÅŸlem", "Ä°cra Takibi", "DiÄŸer"] ∧
    (propertyNode contradictionSchema "contradiction_type").bind enumOf =
      some ["FACTUAL_ERROR", "WITNESS_CONFLICT", "TIMELINE_IMPOSSIBILITY",
        "MISSING_INFO"] ∧
    (propertyNode contradictionSchema "severity").bind enumOf =
      some ["HIGH", "MEDIUM", "LOW"] ∧
    (propertyNode logicSchema "risk_level").bind enumOf =
      some ["HIGH", "MEDIUM", "LOW", "NONE"] ∧
    (propertyNode timelineEventItemSchema "significance").bind typeOf =
      some (.arr [.str "string", .str "null"]) ∧
    (propertyNode timelineSchema "primary_jurisdiction").bind typeOf =
      some (.arr [.str "string", .str "null"]) ∧
    (propertyNode timelineSchema "case_number").bind typeOf =
      some (.arr [.str "string", .str "null"]) ∧
    (propertyNode contradictionSchema "legal_basis").bind typeOf =
      some (.arr [.str "string", .str "null"]) ∧
    (propertyNode contradictionSchema "recommended_action").bind typeOf =
      some (.arr [.str "string", .str "null"]) ∧
    (propertyNode logicSchema "analysis_notes").bind typeOf =
      some (.arr [.str "string", .str "null"]) :=
  ⟨rfl, rfl, rfl, rfl, rfl, rfl, rfl, rfl, rfl, rfl, rfl, rfl, rfl, rfl⟩

/-! ## Chat grounding-block renderer
(`_build_context_str`, src/backend/services/chat_service.py)

The renderer receives the JSON-serialized `AnalysisResult` dict; Python
values are modelled by `PyVal`.  `pyStr` is Python `str()` as applied by
f-string interpolation; on the values the renderer actually reads it only
meets strings, `None`, and ints, so its container cases are placeholders
that no modelled code path reaches. -/

/-- A Python value as found in the deserialized `AnalysisResult` context. -/
inductive PyVal where
  | str (s : String)
  | int (n : Int)
  | num (q : Rat)
  | none
  | list (xs : List PyVal)
  | dict (fields : List (String × PyVal))
deriving Repr

/-- Dict key lookup. -/
def pyLookup : List (String × PyVal) → String → Option PyVal
  | [], _ => Option.none
  | (k, v) :: rest, key => if k = key then some v else pyLookup rest key

/-- Python `d.get(key, default)`. -/
def pyGet (v : PyVal) (key : String) (default : PyVal) : PyVal :=
  match v with
  | .dict fs =>
    match pyLookup fs key with
    | some x => x
    | Option.none => default
  | _ => default

/-- Python `str()` as used by f-string interpolation. -/
def pyStr : PyVal → String
  | .str s => s
  | .int n => toString n
  | .num q => toString q
  | .none => "None"
  | .list _ => "<list>"
  | .dict _ => "<dict>"

/-- Reads a Python list value (the renderer only iterates real lists). -/
def asList : PyVal → List PyVal
  | .list xs => xs
  | _ => []

/-- Reads a Python int (the involved-event ids are serialized ints). -/
def asInt : PyVal → Int
  | .int n => n
  | _ => 0

/-- Python `s or default` on strings: the default if `s` is empty. -/
def strOr (s d : String) : String :=
  if s = "" then d else s

/-- The per-event block of `_build_context_str` (chat_service.py, 62-70). -/
def eventBlock (i : Nat) (ev : PyVal) : List String :=
  let tarih := pyStr (pyGet ev "date" (.str "?"))
  let kategori := pyStr (pyGet ev "category" (.str "?"))
  let aciklama := pyStr (pyGet ev "description" (.str ""))
  let taraflar := strOr
    (String.intercalate ", " ((asList (pyGet ev "entities" (.list []))).map pyStr))
    "Belirtilmemiş"
  let onem := pyStr (pyGet ev "significance" (.str "Belirtilmemiş"))
  ["",
   s!"[Olay #{i + 1}]  Tarih: {tarih}  |  Kategori: {kategori}",
   s!"  Açıklama  : {aciklama}",
   s!"  Taraflar  : {taraflar}",
   s!"  Hukuki Önem: {onem}"]

/-- The header line of a contradiction block (chat_service.py, line 78):
the type is read from the dict key named type with default question mark. -/
def contraHeaderLine (i : Nat) (c : PyVal) : String :=
  let tur := pyStr (pyGet c "type" (.str "?"))
  let onem := pyStr (pyGet c "severity" (.str "?"))
  s!"[Çelişki #{i + 1}]  Tür: {tur}  |  Önem: {onem}"

/-- One involved-event citation (1-based) in the contradiction block. -/
def refCitation (v : PyVal) : String :=
  let m := asInt v + 1
  s!"Olay #{m}"

/-- The per-contradiction block of `_build_context_str`
(chat_service.py, 74-84). -/
def contraBlock (i : Nat) (c : PyVal) : List String :=
  let baslik := pyStr (pyGet c "title" (.str ""))
  let aciklama := pyStr (pyGet c "description" (.str ""))
  let ilgili := strOr
    (String.intercalate " | "
      ((asList (pyGet c "involved_event_ids" (.list []))).map refCitation))
    "Belirtilmemiş"
  let dayanak := pyStr (pyGet c "legal_basis" (.str "Belirtilmemiş"))
  let tavsiye := pyStr (pyGet c "recommended_action" (.str "Belirtilmemiş"))
  ["",
   contraHeaderLine i c,
   s!"  Başlık     : {baslik}",
   s!"  Açıklama   : {aciklama}",
   s!"  İlgili     : {ilgili}",
   s!"  Hukuki Dayanak: {dayanak}",
   s!"  Tavsiye    : {tavsiye}"]

/-- Python `for i, x in enumerate(xs): lines += block(i, x)`. -/
def renderBlocks (block : Nat → PyVal → List String) : Nat → List PyVal → List String
  | _, [] => []
  | i, v :: rest => block i v ++ renderBlocks block (i + 1) rest

/-- Model of `_build_context_str` (chat_service.py, lines 45-86), as the list of
lines it accumulates before the final newline join. -/
def buildContextLines (ctx : PyVal) : List String :=
  let events := asList (pyGet ctx "events" (.list []))
  let contras := asList (pyGet ctx "contradictions" (.list []))
  let risk := pyStr (pyGet ctx "risk_level" (.str "NONE"))
  let ozet := pyStr (pyGet ctx "document_summary" (.str "Yok"))
  let nEvents := events.length
  let nContras := contras.length
  [s!"Risk Seviyesi  : {risk}",
   s!"Toplam Olay    : {nEvents}",
   s!"Toplam Çelişki : {nContras}",
   s!"Belge Özeti    : {ozet}",
   "",
   "━━━ OLAYLAR ━━━"]
  ++ renderBlocks eventBlock 0 events
  ++ ["", "━━━ ÇELİŞKİLER ━━━"]
  ++ renderBlocks contraBlock 0 contras

/-- The final joined grounding block. -/
def buildContextStr (ctx : PyVal) : String :=
  String.intercalate "\n" (buildContextLines ctx)

/-! ### JSON serialization of the domain objects (pydantic `model_dump`):
field names as declared in models.py; the enum field serializes under the
key `contradiction_type` to its string value. -/

/-- An optional string serializes to the string or `None`. -/
def optStrPy : Option String → PyVal
  | some s => .str s
  | Option.none => .none

/-- Serialized `TimelineEvent`. -/
def TimelineEvent.toPy (e : TimelineEvent) : PyVal :=
  .dict [("date", .str e.date),
         ("description", .str e.description),
         ("source_page", .int e.source_page),
         ("entities", .list (e.entities.map PyVal.str)),
         ("category", .str e.category),
         ("significance", optStrPy e.significance)]

/-- Serialized `Contradiction`: note the field name `contradiction_type`. -/
def Contradiction.toPy (c : Contradiction) : PyVal :=
  .dict [("title", .str c.title),
         ("contradiction_type", .str c.contradiction_type.value),
         ("description", .str c.description),
         ("involved_event_ids", .list (c.involved_event_ids.map PyVal.int)),
         ("severity", .str c.severity),
         ("confidence_score", .num c.confidence_score),
         ("legal_basis", optStrPy c.legal_basis),
         ("recommended_action", optStrPy c.recommended_action)]

/-- Serialized `AnalysisResult` (the `/analyze/deep` response body, passed
back verbatim as the chat context). -/
def AnalysisResult.toPy (a : AnalysisResult) : PyVal :=
  .dict [("events", .list (a.events.map TimelineEvent.toPy)),
         ("document_summary", .str a.document_summary),
         ("total_events_found", .int a.total_events_found),
         ("primary_jurisdiction", optStrPy a.primary_jurisdiction),
         ("case_number", optStrPy a.case_number),
         ("contradictions", .list (a.contradictions.map Contradiction.toPy)),
         ("total_contradictions_found", .int a.total_contradictions_found),
         ("risk_level", .str a.risk_level),
         ("analysis_notes", optStrPy a.analysis_notes)]

theorem toString_string (s : String) : toString s = s := rfl

theorem mem_renderBlocks (block : Nat → PyVal → List String)
    (cs : List PyVal) (i0 k : Nat) (hk : k < cs.length) (l : String)
    (hl : l ∈ block (i0 + k) (cs.get ⟨k, hk⟩)) :
    l ∈ renderBlocks block i0 cs := by
  induction cs generalizing i0 k with
  | nil => exact absurd hk (Nat.not_lt_zero k)
  | cons c rest ih =>
    cases k with
    | zero =>
      apply List.mem_append_left
      simpa using hl
    | succ k =>
      apply List.mem_append_right
      refine ih (i0 + 1) k (Nat.lt_of_succ_lt_succ hk) ?_
      have harith : i0 + 1 + k = i0 + (k + 1) := by omega
      rw [harith]
      exact hl

/-- C10: for every serialized `AnalysisResult` context, the grounding block
renders every contradiction's type as the placeholder `"?"`: the renderer
reads the key `"type"` while the serializer writes the field under
`"contradiction_type"`, so the lookup always falls back to the default and
the actual contradiction type never appears in the header line. -/
theorem chat_context_type_is_question_mark (a : AnalysisResult) (k : Nat)
    (hk : k < a.contradictions.length) :
    pyGet (Contradiction.toPy (a.contradictions.get ⟨k, hk⟩)) "type" (.str "?") =
      .str "?" ∧
    contraHeaderLine k (Contradiction.toPy (a.contradictions.get ⟨k, hk⟩)) =
      "[Çelişki #" ++ toString (k + 1) ++ "]  Tür: ?  |  Önem: " ++
        (a.contradictions.get ⟨k, hk⟩).severity ∧
    contraHeaderLine k (Contradiction.toPy (a.contradictions.get ⟨k, hk⟩)) ∈
      buildContextLines (AnalysisResult.toPy a) := by
  refine ⟨rfl, ?_, ?_⟩
  · unfold contraHeaderLine
    simp [Contradiction.toPy, pyGet, pyLookup, pyStr, toString_string,
      String.append_empty, String.append_assoc]
  · unfold buildContextLines
    apply List.mem_append_right
    have hccs : asList (pyGet (AnalysisResult.toPy a) "contradictions"
        (.list [])) = a.contradictions.map Contradiction.toPy := rfl
    rw [hccs]
    have hk' : k < (a.contradictions.map Contradiction.toPy).length := by
      simpa using hk
    have hget : (a.contradictions.map Contradiction.toPy).get ⟨k, hk'⟩ =
        Contradiction.toPy (a.contradictions.get ⟨k, hk⟩) := by
      simp
    refine mem_renderBlocks contraBlock _ 0 k hk' _ ?_
    rw [Nat.zero_add, hget]
    unfold contraBlock
    exact List.mem_cons_of_mem _ (List.mem_cons_self _ _)

/-- A concrete merged result carrying one contradiction, as chat context. -/
def aChatEx : AnalysisResult := AnalysisResult.from_phases tEx3 rAllInvalid

/-- C10 witness: a concrete context with one HIGH contradiction renders its
type as `"?"`. -/
theorem chat_context_type_is_question_mark_witness :
    pyGet (Contradiction.toPy cRepaired) "type" (.str "?") = .str "?" ∧
    contraHeaderLine 0 (Contradiction.toPy cRepaired) =
      "[Çelişki #" ++ toString (0 + 1) ++ "]  Tür: ?  |  Önem: " ++
        cRepaired.severity ∧
    contraHeaderLine 0 (Contradiction.toPy cRepaired) ∈
      buildContextLines (AnalysisResult.toPy aChatEx) :=
  chat_context_type_is_question_mark aChatEx 0 (by decide)

end LexTimeline
